import Mathlib

/-!
Verification of the STAINLESS-Monitor signal aggregation engine
(`src/main.py`) against its natural-language specification.

The Python source is shallowly embedded: every numeric value parsed from a
source page is modelled as an exact rational (`ℚ`), external retrievals are
modelled as explicit optional / oracle inputs, and `datetime.now()` is
modelled as an explicit `today : String` parameter.  String rendering of
numbers follows the Python format specs used by the source
(`{x:,.0f}`, `{x:.2f}`, `str(float)`): the embeddings round to nearest and
print shortest decimal expansions, which agrees with CPython on every value
appearing in this development (all of them exact decimals).
-/

/- ------------------------------------------------------------------ -/
/- Generic string helpers (substring search, Python-style padding).    -/
/- ------------------------------------------------------------------ -/

/-- Does the character list `s` start with `p`? -/
def startsWithL : List Char → List Char → Bool
  | [], _ => true
  | _ :: _, [] => false
  | a :: as, b :: bs => a == b && startsWithL as bs

/-- Does the character list contain `p` as a contiguous run? -/
def hasSubL (p : List Char) : List Char → Bool
  | [] => p.isEmpty
  | c :: rest => startsWithL p (c :: rest) || hasSubL p rest

/-- Substring test on strings, the embedding of Python's `in` on `str`. -/
def strContainsSub (p s : String) : Bool := hasSubL p.data s.data

/-- Replace every non-overlapping occurrence of `pat` (scanning left to
right) by `rep`, with fuel bounding the recursion by the input length. -/
def replaceAllAux (pat rep : List Char) : Nat → List Char → List Char
  | _, [] => []
  | 0, l => l
  | fuel + 1, c :: rest =>
    if pat ≠ [] ∧ startsWithL pat (c :: rest) = true then
      rep ++ replaceAllAux pat rep fuel (List.drop (pat.length - 1) rest)
    else c :: replaceAllAux pat rep fuel rest

/-- Embedding of Python `str.replace`: replace every occurrence of `pat`
by `rep`. -/
def strReplace (s pat rep : String) : String :=
  String.mk (replaceAllAux pat.data rep.data s.data.length s.data)

/-- Python `f"{s:<n}"`: left-align `s` in a field of `n` characters. -/
def padR (s : String) (n : Nat) : String :=
  s ++ String.mk (List.replicate (n - s.length) ' ')

/-- Python `f"{s:>n}"`: right-align `s` in a field of `n` characters. -/
def padL (s : String) (n : Nat) : String :=
  String.mk (List.replicate (n - s.length) ' ') ++ s

/- ------------------------------------------------------------------ -/
/- Numeric rendering: the Python format specs used by `main.py`.       -/
/- ------------------------------------------------------------------ -/

/-- Insert a comma before every later group of three digits.  The input is
the reversed digit list; the counter `i` is the number of digits already
emitted. -/
def digitsComma : Nat → List Char → List Char
  | _, [] => []
  | i, c :: cs =>
    if i ≠ 0 ∧ i % 3 = 0 then ',' :: c :: digitsComma (i + 1) cs
    else c :: digitsComma (i + 1) cs

/-- Decimal rendering of an integer with thousands separators. -/
def intComma (n : ℤ) : String :=
  (if n < 0 then "-" else "") ++
    String.mk ((digitsComma 0 (toString n.natAbs).data.reverse).reverse)

/-- Embedding of Python `f"{q:,.0f}"` (used for the headline price):
round to the nearest integer and group digits with commas.  CPython rounds
the underlying double half-to-even; on the exact values used here the two
rounding rules agree. -/
def fmtComma0 (q : ℚ) : String := intComma (round q)

/-- Pad a digit string to at least `k + 1` digits and place a decimal point
before the last `k` of them. -/
def dotInsert (s : String) (k : Nat) : String :=
  let l := s.data
  let l := if l.length < k + 1 then List.replicate (k + 1 - l.length) '0' ++ l else l
  String.mk (l.take (l.length - k)) ++ "." ++ String.mk (l.drop (l.length - k))

/-- Embedding of Python `f"{q:.2f}"`: two fixed decimal places. -/
def fix2 (q : ℚ) : String :=
  let n := round (q * 100)
  (if n < 0 then "-" else "") ++ dotInsert (toString n.natAbs) 2

/-- Smallest positive number of decimal digits that represents a fraction
with denominator `d` exactly (1 if none up to 28, which never happens for
denominators of parsed decimals). -/
def decExp (d : Nat) : Nat :=
  match (List.range 28).find? (fun j => 10 ^ (j + 1) % d == 0) with
  | some j => j + 1
  | none => 1

/-- Embedding of Python `str(float)` (used for `{change_pct}` in the
headline) for values that are exact short decimals: shortest decimal
expansion with at least one fractional digit, e.g. `2.3`, `0.0`, `-1.25`. -/
def ratPyStr (q : ℚ) : String :=
  let k := decExp q.den
  let scaled := q.num.natAbs * (10 ^ k / q.den)
  (if q.num < 0 then "-" else "") ++ dotInsert (toString scaled) k

/-- Embedding of Python `int()` applied to a fraction: truncation toward
zero. -/
def truncQ (q : ℚ) : ℤ := if 0 ≤ q then ⌊q⌋ else -⌊-q⌋

/- ------------------------------------------------------------------ -/
/- Data model.                                                         -/
/- ------------------------------------------------------------------ -/

/-- The dict returned by `get_nickel_price` (src/main.py lines 60-64). -/
structure NickelData where
  price : ℚ
  changePct : ℚ
  date : String
  deriving DecidableEq

/-- The dict returned by the success path of `get_market_trend`
(src/main.py lines 109-114). -/
structure TrendDict where
  status : String
  ma20 : ℚ
  ma60 : ℚ
  price : ℚ
  deriving DecidableEq

/-- All possible returns of `get_market_trend`: `None` from the exception
handler (line 117), the bare tuple `("資料不足", 0, 0)` from the
insufficient-data guard (line 80), or the dict from the success path. -/
inductive TrendRet where
  | fail
  | insufficientTuple
  | ok (d : TrendDict)
  deriving DecidableEq

/-- One entry of `STOCK_LIST` (src/main.py lines 16-22). -/
structure StockInfo where
  id : String
  name : String
  tag : String
  deriving DecidableEq

/-- Outcome of one per-asset `yf.Ticker(...).history("5d")` retrieval:
the exception path of the `try` block, or a frame with its `Close` column
and optionally a last `Volume` value (absent models a missing column). -/
inductive FetchRes where
  | err
  | ok (closes : List ℚ) (vol : Option ℚ)
  deriving DecidableEq

/-- Composite alert tier of the fused signal (spec section 4.2). -/
inductive AlertTier where
  | strong
  | watch
  | none
  deriving DecidableEq

/-- Trend labels of the spec's data model (section 3); the code represents
them as the status strings mapped by `labelStatus`. -/
inductive TrendLabel where
  | bullishAligned
  | rebound
  | bearishAligned
  | pullback
  | flat
  deriving DecidableEq

/- ------------------------------------------------------------------ -/
/- Source embedding: configuration constants.                          -/
/- ------------------------------------------------------------------ -/

/-- Source URL constant `NICKEL_URL` (src/main.py line 10). -/
def NICKEL_URL : String := "https://markets.businessinsider.com/commodities/nickel-price"

/-- The asset basket `STOCK_LIST` (src/main.py lines 16-22). -/
def STOCK_LIST : List StockInfo :=
  [⟨"2025.TW", "千興", "小型飆股"⟩,
   ⟨"2030.TW", "彰源", "庫存利得"⟩,
   ⟨"1605.TW", "華新", "鎳礦資源"⟩,
   ⟨"2034.TW", "允強", "製造龍頭"⟩,
   ⟨"2027.TW", "大成鋼", "美鋁通路"⟩]

/- ------------------------------------------------------------------ -/
/- Source embedding: get_nickel_price.                                 -/
/- ------------------------------------------------------------------ -/

/-- Embedding of `get_nickel_price` (src/main.py lines 37-67) after the
page fetch: `priceParse` is the parsed price when a price element was found
and `float(...)` succeeded, `pctParse` the parsed percent change when the
relative-value element was found and parsed.  A missing or unparsable
percent element leaves `change_pct` at its `0.0` default (lines 54-58);
a missing price fails the whole quote (line 50). -/
def getNickelPrice (today : String) (priceParse pctParse : Option ℚ) : Option NickelData :=
  match priceParse with
  | Option.none => Option.none
  | Option.some p => Option.some ⟨p, pctParse.getD 0, today⟩

/- ------------------------------------------------------------------ -/
/- Source embedding: get_market_trend.                                 -/
/- ------------------------------------------------------------------ -/

/-- Pandas `Series.tail n`: the last `n` entries. -/
def tailN (n : Nat) (l : List ℚ) : List ℚ := l.drop (l.length - n)

/-- Pandas `Series.mean`: arithmetic mean. -/
def mean (l : List ℚ) : ℚ := l.sum / (l.length : ℚ)

/-- The trend status string produced by the branch chain of
`get_market_trend` (src/main.py lines 88-110), with the emoji prefixed as
in `f"{trend_emoji} {trend_status}"`. -/
def trendStatusOf (price ma20 ma60 : ℚ) : String :=
  if price > ma20 ∧ ma20 > ma60 then "🚀 多頭排列 (強勢)"
  else if price > ma20 ∧ ma20 < ma60 then "📈 站上月線 (反彈)"
  else if price < ma20 ∧ ma20 < ma60 then "🐻 空頭排列 (弱勢)"
  else if price < ma20 ∧ ma20 > ma60 then "📉 跌破月線 (整理)"
  else "⚖️ 盤整中"

/-- Embedding of `get_market_trend` (src/main.py lines 69-117).  The input
is the `Close` column of the 4-month history, `Option.none` modelling the
exception path of the `try` block. -/
def getMarketTrend (hist : Option (List ℚ)) : TrendRet :=
  match hist with
  | Option.none => TrendRet.fail
  | Option.some l =>
    if l.length < 60 then TrendRet.insufficientTuple
    else
      let price := l.getLastD 0
      let _ma5 := mean (tailN 5 l)
      let ma20 := mean (tailN 20 l)
      let ma60 := mean (tailN 60 l)
      TrendRet.ok ⟨trendStatusOf price ma20 ma60, ma20, ma60, price⟩

/- ------------------------------------------------------------------ -/
/- Source embedding: get_tw_stocks_status.                             -/
/- ------------------------------------------------------------------ -/

/-- Header row of the asset table (src/main.py line 122). -/
def headerLine : String :=
  padR "代號" 5 ++ " " ++ padR "名稱" 4 ++ " " ++ padL "現價" 6 ++ " " ++
    padL "漲跌%" 7 ++ " " ++ padL "張數" 5 ++ "  " ++ "特性"

/-- Separator rule of the asset table (src/main.py line 124). -/
def sepLine : String := String.mk (List.replicate 42 '-')

/-- One iteration of the per-asset loop of `get_tw_stocks_status`
(src/main.py lines 126-153): the appended line for one asset given its
retrieval outcome. -/
def renderRow (s : StockInfo) (r : FetchRes) : String :=
  match r with
  | FetchRes.err => s.id ++ " 讀取錯誤"
  | FetchRes.ok closes vol =>
    if 1 ≤ closes.length then
      let price := closes.getLastD 0
      let volume : ℤ := match vol with
        | Option.none => 0
        | Option.some v => truncQ (v / 1000)
      let stockCode := strReplace s.id ".TW" ""
      let changeStr :=
        if 2 ≤ closes.length then
          let prev := closes.dropLast.getLastD 0
          let change := (price - prev) / prev * 100
          let sign := if 0 < change then "+" else ""
          sign ++ fix2 change ++ "%"
        else "0.00%"
      padR stockCode 5 ++ " " ++ padR s.name 4 ++ " " ++ padL (fix2 price) 6 ++ " " ++
        padL changeStr 7 ++ " " ++ padL (toString volume) 5 ++ "  " ++ s.tag
    else s.id ++ " 無資料"

/-- The `table_lines` list built by the loop of `get_tw_stocks_status`
(src/main.py lines 121-153), generalized over the per-asset retrieval
oracle and the basket. -/
def stocksLines (fetch : StockInfo → FetchRes) (basket : List StockInfo) : List String :=
  basket.foldl (fun acc s => acc ++ [renderRow s (fetch s)]) [headerLine, sepLine]

/-- Embedding of `get_tw_stocks_status` (src/main.py lines 119-155). -/
def getTwStocksStatus (fetch : StockInfo → FetchRes) : String :=
  String.intercalate "\n" (stocksLines fetch STOCK_LIST)

/- ------------------------------------------------------------------ -/
/- Source embedding: main (fusion and composition).                    -/
/- ------------------------------------------------------------------ -/

/-- Embedding of `is_bullish_price` (src/main.py line 168): truthiness of
`nickel_data and nickel_data['change_pct'] > 1.0`. -/
def isBullishPrice (q : Option NickelData) : Bool :=
  match q with
  | Option.none => false
  | Option.some d => decide (d.changePct > 1)

/-- Embedding of `is_bullish_trend` (src/main.py line 169) on the dict
shape: truthiness of `market_trend and "多頭" in market_trend['status']`. -/
def isBullishTrend (t : Option TrendDict) : Bool :=
  match t with
  | Option.none => false
  | Option.some d => strContainsSub "多頭" d.status

/-- The escalation decision of src/main.py lines 210-213 expressed as a
tier (spec section 4.2). -/
def alertTier (pb tb : Bool) : AlertTier :=
  if pb && tb then AlertTier.strong
  else if pb && !tb then AlertTier.watch
  else AlertTier.none

/-- The escalation line prepended by src/main.py lines 210-213 (empty when
no escalation applies). -/
def escalation (pb tb : Bool) : String :=
  if pb && tb then "@here **🚀 強力訊號：鎳價大漲 + 趨勢多頭！全力留意！**\n"
  else if pb && !tb then "@here **⚠️ 注意：鎳價反彈，但大趨勢仍偏空 (搶短請小心)**\n"
  else ""

/-- The rise/fall indicator of the headline (src/main.py line 178):
`"🔺" if change_pct > 0 else "🔻"`. -/
def pctSign (p : ℚ) : String := if p > 0 then "🔺" else "🔻"

/-- The quote section of the bulletin (src/main.py lines 176-183):
a full headline when the quote is available, a degraded line otherwise. -/
def nickelHeadline (nq : Option NickelData) : String :=
  match nq with
  | Option.some d =>
    "**🔩 LME 鎳價 (Spot)**\n> 現價: `" ++ fmtComma0 d.price ++ "` USD\n> 漲跌: `" ++
      pctSign d.changePct ++ " " ++ ratPyStr d.changePct ++ "%`\n"
  | Option.none => "**🔩 LME 鎳價**: `讀取失敗` (請檢查 Business Insider)\n"

/-- The strategy suggestion line of the trend section (src/main.py
lines 192-200). -/
def strategyLine (status : String) : String :=
  if strContainsSub "多頭" status then "`順勢做多，拉回找買點` ✅\n"
  else if strContainsSub "站上月線" status then "`反彈行情，短線操作` ⚠️\n"
  else if strContainsSub "空頭" status then "`空頭走勢，保守觀望` ⛔\n"
  else "`區間震盪，低買高賣` 🔄\n"

/-- The trend section of the bulletin (src/main.py lines 186-200), empty
when the trend is unavailable. -/
def trendSection (mt : Option TrendDict) : String :=
  match mt with
  | Option.some t =>
    "**🌊 原物料趨勢 (DBB ETF)**\n> 狀態: **" ++ t.status ++ "**\n> 均線: 月線 " ++
      fix2 t.ma20 ++ " | 季線 " ++ fix2 t.ma60 ++ "\n> 策略: " ++ strategyLine t.status
  | Option.none => ""

/-- The message composition of `main` (src/main.py lines 165-213).
`today` models the `datetime.now().strftime('%Y-%m-%d')` read at line 173,
`table` the text returned by `get_tw_stocks_status`. -/
def composeMessage (today : String) (nq : Option NickelData) (mt : Option TrendDict)
    (table : String) : String :=
  let pb := isBullishPrice nq
  let tb := isBullishTrend mt
  let titleEmoji := if pb && tb then "🔥" else "📊"
  escalation pb tb ++
    (titleEmoji ++ " **鎳價策略戰情室** (" ++ today ++ ")\n\n" ++
      nickelHeadline nq ++ trendSection mt ++ "\n" ++
      "**🏭 不銹鋼個股表現**\n```yaml\n" ++ table ++ "\n```")

/-- Embedding of the control flow of `main` (src/main.py lines 159-215)
around the trend result.  When `get_market_trend` returned the bare tuple
of line 80, the expression `market_trend['status']` at line 169 indexes a
truthy tuple with a string and raises `TypeError`, so no bulletin is
composed; otherwise composition proceeds with the optional dict. -/
def mainRun (today : String) (nq : Option NickelData) (tr : TrendRet)
    (table : String) : Except String String :=
  match tr with
  | TrendRet.insufficientTuple =>
    Except.error "TypeError: tuple indices must be integers, not str"
  | TrendRet.fail => Except.ok (composeMessage today nq Option.none table)
  | TrendRet.ok d => Except.ok (composeMessage today nq (Option.some d) table)

/- ------------------------------------------------------------------ -/
/- Spec-side definitions (for refinement comparisons).                 -/
/- ------------------------------------------------------------------ -/

/-- Modelled from the claim's words (C1, original form): the five-branch
rule with REBOUND on `medium_ma <= long_ma` and PULLBACK on
`medium_ma >= long_ma`. -/
def claimFiveBranch (rp m20 m60 : ℚ) : TrendLabel :=
  if rp > m20 ∧ m20 > m60 then TrendLabel.bullishAligned
  else if rp > m20 ∧ m20 ≤ m60 then TrendLabel.rebound
  else if rp < m20 ∧ m20 < m60 then TrendLabel.bearishAligned
  else if rp < m20 ∧ m20 ≥ m60 then TrendLabel.pullback
  else TrendLabel.flat

/-- Modelled from the claim's words as amended (C1): the five-branch rule
with strictly ordered comparisons throughout, equality of medium and long
averages falling through to FLAT. -/
def strictFiveBranch (rp m20 m60 : ℚ) : TrendLabel :=
  if rp > m20 ∧ m20 > m60 then TrendLabel.bullishAligned
  else if rp > m20 ∧ m20 < m60 then TrendLabel.rebound
  else if rp < m20 ∧ m20 < m60 then TrendLabel.bearishAligned
  else if rp < m20 ∧ m20 > m60 then TrendLabel.pullback
  else TrendLabel.flat

/-- The status string the code uses for each trend label. -/
def labelStatus : TrendLabel → String
  | TrendLabel.bullishAligned => "🚀 多頭排列 (強勢)"
  | TrendLabel.rebound => "📈 站上月線 (反彈)"
  | TrendLabel.bearishAligned => "🐻 空頭排列 (弱勢)"
  | TrendLabel.pullback => "📉 跌破月線 (整理)"
  | TrendLabel.flat => "⚖️ 盤整中"

/- ------------------------------------------------------------------ -/
/- Concrete inputs used by counterexamples and witnesses.              -/
/- ------------------------------------------------------------------ -/

/-- A 60-observation close series whose 20-day and 60-day trailing means
are both 1 while the latest close is 20: the latest close is above the
medium average and the medium and long averages are exactly equal. -/
def tieSeries : List ℚ := List.replicate 40 1 ++ List.replicate 19 0 ++ [20]

/-- A series one observation short of the 60-observation long window. -/
def shortSeries : List ℚ := List.replicate 59 1

/-- The scenario of spec section 8: retrieval fails exactly for the third
basket asset (1605.TW) and succeeds with a one-observation history for the
others. -/
def scenarioFetch (s : StockInfo) : FetchRes :=
  if s.id = "1605.TW" then FetchRes.err else FetchRes.ok [100] Option.none

/- ------------------------------------------------------------------ -/
/- Helper lemmas.                                                      -/
/- ------------------------------------------------------------------ -/

theorem startsWithL_refl (p : List Char) : startsWithL p p = true := by
  induction p with
  | nil => rfl
  | cons a as ih => simp [startsWithL, ih]

theorem startsWithL_extend (p : List Char) :
    ∀ s t : List Char, startsWithL p s = true → startsWithL p (s ++ t) = true := by
  induction p with
  | nil => intro s t _; cases s ++ t <;> rfl
  | cons a as ih =>
    intro s t h
    cases s with
    | nil => simp [startsWithL] at h
    | cons b bs =>
      simp only [startsWithL, Bool.and_eq_true] at h
      simp only [List.cons_append, startsWithL, Bool.and_eq_true]
      exact ⟨h.1, ih bs t h.2⟩

theorem hasSubL_nil_pat (s : List Char) : hasSubL [] s = true := by
  induction s with
  | nil => rfl
  | cons c cs ih => simp [hasSubL, startsWithL]

theorem hasSubL_of_startsWith (p s : List Char) (h : startsWithL p s = true) :
    hasSubL p s = true := by
  cases s with
  | nil =>
    cases p with
    | nil => rfl
    | cons a as => simp [startsWithL] at h
  | cons c cs => simp [hasSubL, h]

theorem hasSubL_appR (p : List Char) :
    ∀ a b : List Char, hasSubL p b = true → hasSubL p (a ++ b) = true := by
  intro a
  induction a with
  | nil => intro b h; simpa using h
  | cons c cs ih =>
    intro b h
    simp only [List.cons_append, hasSubL, Bool.or_eq_true]
    exact Or.inr (ih b h)

theorem hasSubL_appL (p : List Char) :
    ∀ a b : List Char, hasSubL p a = true → hasSubL p (a ++ b) = true := by
  intro a
  induction a with
  | nil =>
    intro b h
    simp only [hasSubL, List.isEmpty_iff] at h
    subst h
    simpa using hasSubL_nil_pat b
  | cons c cs ih =>
    intro b h
    simp only [hasSubL, Bool.or_eq_true] at h
    simp only [List.cons_append, hasSubL, Bool.or_eq_true]
    rcases h with h | h
    · exact Or.inl (startsWithL_extend p (c :: cs) b h)
    · exact Or.inr (ih b h)

theorem strSub_appL {p a : String} (b : String) (h : strContainsSub p a = true) :
    strContainsSub p (a ++ b) = true := by
  simp only [strContainsSub, String.data_append]
  exact hasSubL_appL p.data a.data b.data h

theorem strSub_appR (a : String) {p b : String} (h : strContainsSub p b = true) :
    strContainsSub p (a ++ b) = true := by
  simp only [strContainsSub, String.data_append]
  exact hasSubL_appR p.data a.data b.data h

theorem strSub_self (p : String) : strContainsSub p p = true :=
  hasSubL_of_startsWith p.data p.data (startsWithL_refl p.data)

theorem foldl_snoc_map {α : Type} (f : α → String) :
    ∀ (l : List α) (init : List String),
      l.foldl (fun acc s => acc ++ [f s]) init = init ++ l.map f := by
  intro l
  induction l with
  | nil => intro init; simp
  | cons x xs ih =>
    intro init
    simp only [List.foldl_cons, List.map_cons]
    rw [ih]
    simp

theorem trendStatus_eq_label (p a b : ℚ) :
    trendStatusOf p a b = labelStatus (strictFiveBranch p a b) := by
  unfold trendStatusOf strictFiveBranch
  split_ifs <;> rfl

theorem bullish_sub_iff (p a b : ℚ) :
    strContainsSub "多頭" (trendStatusOf p a b) = true ↔
      strictFiveBranch p a b = TrendLabel.bullishAligned := by
  unfold trendStatusOf strictFiveBranch
  split_ifs <;> decide

theorem tie_last : tieSeries.getLastD 0 = 20 := rfl

theorem tie_mean20 : mean (tailN 20 tieSeries) = 1 := by
  have h : tailN 20 tieSeries = List.replicate 19 (0:ℚ) ++ [20] := rfl
  rw [h]
  simp [mean, List.sum_replicate]

theorem tie_mean60 : mean (tailN 60 tieSeries) = 1 := by
  have h : tailN 60 tieSeries = tieSeries := rfl
  rw [h]
  unfold tieSeries
  simp [mean, List.sum_replicate]
  norm_num

/- ------------------------------------------------------------------ -/
/- Claim theorems.                                                     -/
/- ------------------------------------------------------------------ -/

/-- C1 (counterexample): on a 60-observation series whose latest close (20)
is above the 20-day mean while the 20-day and 60-day means are exactly
equal (both 1), the code classifies FLAT (`盤整中`), but the claim's
five-branch rule (REBOUND on `medium_ma <= long_ma`) mandates REBOUND. -/
theorem spec_c1_counterexample :
    tieSeries.length = 60
    ∧ getMarketTrend (Option.some tieSeries) = TrendRet.ok ⟨"⚖️ 盤整中", 1, 1, 20⟩
    ∧ claimFiveBranch 20 1 1 = TrendLabel.rebound
    ∧ labelStatus (claimFiveBranch 20 1 1) ≠ "⚖️ 盤整中" := by
  have hb : claimFiveBranch (20:ℚ) 1 1 = TrendLabel.rebound := by
    unfold claimFiveBranch
    rw [if_neg (by norm_num), if_pos (by norm_num)]
  refine ⟨by decide, ?_, hb, ?_⟩
  · simp only [getMarketTrend]
    rw [if_neg (by decide), tie_last, tie_mean20, tie_mean60]
    rw [show trendStatusOf (20:ℚ) 1 1 = "⚖️ 盤整中" from by
      unfold trendStatusOf
      rw [if_neg (by norm_num), if_neg (by norm_num), if_neg (by norm_num),
        if_neg (by norm_num)]]
  · rw [hb]; decide

/-- C1 (amended): for every series of at least 60 observations, the code's
classification is exactly the five-branch rule over the latest close and
the 20/60-observation trailing means with strict comparisons throughout:
BULLISH_ALIGNED on `rp > m20 ∧ m20 > m60`, REBOUND on `rp > m20 ∧ m20 < m60`,
BEARISH_ALIGNED on `rp < m20 ∧ m20 < m60`, PULLBACK on `rp < m20 ∧ m20 > m60`,
FLAT otherwise, so any equality falls through to FLAT. -/
theorem spec_c1_trend_rule (l : List ℚ) (h : 60 ≤ l.length) :
    getMarketTrend (Option.some l) =
      TrendRet.ok
        ⟨labelStatus (strictFiveBranch (l.getLastD 0) (mean (tailN 20 l)) (mean (tailN 60 l))),
          mean (tailN 20 l), mean (tailN 60 l), l.getLastD 0⟩ := by
  simp only [getMarketTrend]
  rw [if_neg (Nat.not_lt.mpr h), trendStatus_eq_label]

/-- C1 (witness): the amended rule applied to the concrete 60-observation
tie series. -/
theorem spec_c1_trend_rule_witness :
    60 ≤ tieSeries.length
    ∧ getMarketTrend (Option.some tieSeries) =
        TrendRet.ok
          ⟨labelStatus (strictFiveBranch (tieSeries.getLastD 0)
              (mean (tailN 20 tieSeries)) (mean (tailN 60 tieSeries))),
            mean (tailN 20 tieSeries), mean (tailN 60 tieSeries), tieSeries.getLastD 0⟩ :=
  ⟨by decide, spec_c1_trend_rule tieSeries (by decide)⟩

/-- C3 (code bug): when the trend series is one observation short of the
long window, `get_market_trend` returns the bare tuple of line 80, and the
run crashes with a `TypeError` at line 169 (`market_trend['status']` on a
truthy tuple) instead of continuing to deliver a bulletin. -/
theorem spec_c3_short_series_crash :
    shortSeries.length = 59
    ∧ getMarketTrend (Option.some shortSeries) = TrendRet.insufficientTuple
    ∧ mainRun "2026-10-12" Option.none (getMarketTrend (Option.some shortSeries)) "TBL" =
        Except.error "TypeError: tuple indices must be integers, not str" := by
  refine ⟨by decide, by decide, rfl⟩

/-- C4: for every price series with fewer than 60 observations, the
classifier returns the insufficient-data result, a constructor carrying no
computed average: no moving average is touched. -/
theorem spec_c4_insufficient (l : List ℚ) (h : l.length < 60) :
    getMarketTrend (Option.some l) = TrendRet.insufficientTuple := by
  simp only [getMarketTrend]
  rw [if_pos h]

/-- C4 (witness): the insufficient-data guard on the concrete
59-observation series. -/
theorem spec_c4_insufficient_witness :
    shortSeries.length < 60
    ∧ getMarketTrend (Option.some shortSeries) = TrendRet.insufficientTuple :=
  ⟨by decide, spec_c4_insufficient shortSeries (by decide)⟩

/-- C2: fusion over optional inputs.  The price flag is set iff a quote is
present with percent change above the 1.0 threshold; the trend flag is set
iff a trend dict is present whose status is the BULLISH_ALIGNED one (the
`"多頭" in status` test singles out exactly that status among the
classifier's outputs); the escalation tier is STRONG iff both flags hold,
WATCH iff only the price flag holds, NONE otherwise; an absent input is
total (no exception path) and forces its flag to false. -/
theorem spec_c2_fusion :
    (∀ q : Option NickelData,
        isBullishPrice q = true ↔ ∃ d, q = Option.some d ∧ (1:ℚ) < d.changePct)
    ∧ (∀ p a b : ℚ,
        isBullishTrend (Option.some ⟨trendStatusOf p a b, a, b, p⟩) = true ↔
          strictFiveBranch p a b = TrendLabel.bullishAligned)
    ∧ isBullishPrice Option.none = false
    ∧ isBullishTrend Option.none = false
    ∧ (∀ pb tb : Bool,
        (alertTier pb tb = AlertTier.strong ↔ pb = true ∧ tb = true)
        ∧ (alertTier pb tb = AlertTier.watch ↔ pb = true ∧ tb = false)
        ∧ (alertTier pb tb = AlertTier.none ↔ pb = false)) := by
  refine ⟨?_, ?_, rfl, rfl, by decide⟩
  · intro q
    cases q with
    | none => simp [isBullishPrice]
    | some d =>
      simp only [isBullishPrice, decide_eq_true_eq, Option.some.injEq]
      constructor
      · intro h; exact ⟨d, rfl, h⟩
      · rintro ⟨d', hd, h⟩; cases hd; exact h
  · intro p a b
    simpa only [isBullishTrend] using bullish_sub_iff p a b

/-- C10: when the price element parses but the percent-change element is
missing or unparsable, the quote is still returned with the percent change
defaulted to 0.0; such a quote can never set the price flag, and with the
price flag false the alert tier is NONE and no escalation line is
prepended, for every trend outcome. -/
theorem spec_c10_default_pct (today : String) (p : ℚ) :
    getNickelPrice today (Option.some p) Option.none = Option.some ⟨p, 0, today⟩
    ∧ isBullishPrice (getNickelPrice today (Option.some p) Option.none) = false
    ∧ (∀ tb : Bool,
        alertTier (isBullishPrice (getNickelPrice today (Option.some p) Option.none)) tb =
          AlertTier.none
        ∧ escalation (isBullishPrice (getNickelPrice today (Option.some p) Option.none)) tb =
          "") := by
  have hb : isBullishPrice (getNickelPrice today (Option.some p) Option.none) = false := rfl
  refine ⟨rfl, hb, ?_⟩
  intro tb
  rw [hb]
  exact ⟨rfl, rfl⟩

/-- C5 (counterexample): the headline icon is not chosen by the claimed
four-threshold rule.  That rule forces percent changes of 0.5 and -0.5 to
share the "flat" icon, but the code renders 🔺 for 0.5 and 🔻 for -0.5: no
assignment of surge/strengthening/weakening/flat icons realizes the code's
icon choice. -/
theorem spec_c5_counterexample :
    ¬ ∃ surgeIcon strengthIcon weakIcon flatIcon : String,
        ∀ p : ℚ, pctSign p =
          (if 2 < p then surgeIcon else if 1 < p then strengthIcon
           else if p < -1 then weakIcon else flatIcon) := by
  rintro ⟨s1, s2, s3, s4, h⟩
  have h1 := h (1/2)
  have h2 := h (-(1/2))
  rw [show pctSign ((1:ℚ)/2) = "🔺" from by unfold pctSign; rw [if_pos (by norm_num)]] at h1
  rw [show pctSign (-((1:ℚ)/2)) = "🔻" from by unfold pctSign; rw [if_neg (by norm_num)]] at h2
  rw [if_neg (by norm_num), if_neg (by norm_num), if_neg (by norm_num)] at h1
  rw [if_neg (by norm_num), if_neg (by norm_num), if_neg (by norm_num)] at h2
  exact absurd (h1.trans h2.symm) (by decide)

/-- C5 (amended): the headline change indicator is the single sign check of
line 178 — 🔺 exactly when the percent change is strictly positive, 🔻
otherwise — and the round-trip for a quote with price 19500.0 and percent
change 2.3 still holds: the composed headline contains the substrings
`19,500`, `2.3%` and the rise icon 🔺 (the strongest indicator the code
can render). -/
theorem spec_c5_headline :
    (∀ p : ℚ, (pctSign p = "🔺" ↔ 0 < p) ∧ (pctSign p = "🔻" ↔ ¬ 0 < p))
    ∧ strContainsSub "19,500"
        (nickelHeadline (Option.some ⟨19500, 23/10, "2026-10-12"⟩)) = true
    ∧ strContainsSub "2.3%"
        (nickelHeadline (Option.some ⟨19500, 23/10, "2026-10-12"⟩)) = true
    ∧ strContainsSub "🔺"
        (nickelHeadline (Option.some ⟨19500, 23/10, "2026-10-12"⟩)) = true := by
  have hp : fmtComma0 (19500:ℚ) = "19,500" := by
    unfold fmtComma0
    rw [show ((19500:ℚ)) = (((19500:ℤ)):ℚ) from by norm_num, round_intCast]
    decide
  have hq : ratPyStr ((23:ℚ)/10) = "2.3" := by
    rw [show ((23:ℚ)/10) = (⟨23, 10, by decide, by decide⟩ : ℚ) from by
      rw [Rat.mk'_eq_divInt, Rat.divInt_eq_div]; norm_num]
    decide
  have hs : pctSign ((23:ℚ)/10) = "🔺" := by
    unfold pctSign; rw [if_pos (by norm_num)]
  have hh : nickelHeadline (Option.some ⟨19500, 23/10, "2026-10-12"⟩) =
      "**🔩 LME 鎳價 (Spot)**\n> 現價: `" ++ "19,500" ++ "` USD\n> 漲跌: `" ++
        "🔺" ++ " " ++ "2.3" ++ "%`\n" := by
    simp only [nickelHeadline]
    rw [hp, hq, hs]
  refine ⟨?_, ?_, ?_, ?_⟩
  · intro p
    constructor
    · constructor
      · intro h
        by_contra hc
        rw [pctSign, if_neg hc] at h
        exact absurd h (by decide)
      · intro h
        rw [pctSign, if_pos h]
    · constructor
      · intro h
        intro hc
        rw [pctSign, if_pos hc] at h
        exact absurd h (by decide)
      · intro h
        rw [pctSign, if_neg h]
  · rw [hh]; decide
  · rw [hh]; decide
  · rw [hh]; decide

/-- C8 (counterexample): composition is not deterministic in the spec
contract's inputs alone — with identical quote, trend and table inputs but
two different clock reads, the composed bulletins differ, because the
header date comes from `datetime.now()` at line 173, a hidden timestamp
never passed as an as-of field. -/
theorem spec_c8_counterexample :
    composeMessage "2026-10-12" Option.none Option.none "TBL" ≠
      composeMessage "2026-10-13" Option.none Option.none "TBL" := by
  decide

/-- C8 (amended): composition is deterministic as a pure function of the
clock date read at line 173 together with the data inputs; in particular
the quote's as-of date never enters the message — quotes differing only in
their date field compose to byte-identical bulletins. -/
theorem spec_c8_deterministic (today d1 d2 table : String) (p c : ℚ)
    (mt : Option TrendDict) :
    composeMessage today (Option.some ⟨p, c, d1⟩) mt table =
      composeMessage today (Option.some ⟨p, c, d2⟩) mt table := rfl

/-- C9: for every available quote whose percent change is exactly 0, the
headline renders the falling indicator 🔻 (line 178 tests `> 0` strictly),
and the rising indicator 🔺 appears only for strictly positive changes. -/
theorem spec_c9_zero_change (d : NickelData) (h : d.changePct = 0) :
    pctSign d.changePct = "🔻"
    ∧ strContainsSub "🔻" (nickelHeadline (Option.some d)) = true
    ∧ (∀ p : ℚ, pctSign p = "🔺" → 0 < p) := by
  have hs : pctSign d.changePct = "🔻" := by
    rw [h]; unfold pctSign; rw [if_neg (by norm_num)]
  refine ⟨hs, ?_, ?_⟩
  · simp only [nickelHeadline]
    apply strSub_appL
    apply strSub_appL
    apply strSub_appL
    apply strSub_appR
    rw [hs]
    exact strSub_self "🔻"
  · intro p hp
    by_contra hc
    rw [pctSign, if_neg hc] at hp
    exact absurd hp (by decide)

/-- C9 (witness): the zero-change indicator at a concrete quote. -/
theorem spec_c9_zero_change_witness :
    pctSign ((⟨100, 0, "2026-10-12"⟩ : NickelData)).changePct = "🔻"
    ∧ strContainsSub "🔻"
        (nickelHeadline (Option.some (⟨100, 0, "2026-10-12"⟩ : NickelData))) = true :=
  ⟨(spec_c9_zero_change ⟨100, 0, "2026-10-12"⟩ rfl).1,
   (spec_c9_zero_change ⟨100, 0, "2026-10-12"⟩ rfl).2.1⟩

/-- C7 (counterexample): in a run with the primary quote unavailable, the
composed bulletin does not contain the source URL (nor even its host): the
degraded line of line 183 only names the source, so the URL is not
surfaced as a manual fallback link as the claim states. -/
theorem spec_c7_counterexample :
    strContainsSub NICKEL_URL
        (composeMessage "2026-10-12" Option.none Option.none "TBL") = false
    ∧ strContainsSub "businessinsider.com"
        (composeMessage "2026-10-12" Option.none Option.none "TBL") = false := by
  exact ⟨by decide, by decide⟩

/-- C7 (amended): when the primary quote is unavailable, the bulletin
contains a degraded headline stating retrieval failure (`讀取失敗`) that
names the source (`Business Insider`) as the manual fallback pointer
(without its URL), and the asset table section — and the trend section,
when the trend independently succeeded — still appear in the message. -/
theorem spec_c7_degraded (today table : String) (t : TrendDict) :
    strContainsSub "讀取失敗"
        (composeMessage today Option.none (Option.some t) table) = true
    ∧ strContainsSub "Business Insider"
        (composeMessage today Option.none (Option.some t) table) = true
    ∧ strContainsSub table
        (composeMessage today Option.none (Option.some t) table) = true
    ∧ strContainsSub "🌊 原物料趨勢"
        (composeMessage today Option.none (Option.some t) table) = true
    ∧ strContainsSub "不銹鋼個股表現"
        (composeMessage today Option.none (Option.some t) table) = true
    ∧ strContainsSub "讀取失敗"
        (composeMessage today Option.none Option.none table) = true
    ∧ strContainsSub table
        (composeMessage today Option.none Option.none table) = true := by
  refine ⟨?_, ?_, ?_, ?_, ?_, ?_, ?_⟩
  · simp only [composeMessage]
    apply strSub_appR
    apply strSub_appL
    apply strSub_appL
    apply strSub_appL
    apply strSub_appL
    apply strSub_appL
    apply strSub_appR
    decide
  · simp only [composeMessage]
    apply strSub_appR
    apply strSub_appL
    apply strSub_appL
    apply strSub_appL
    apply strSub_appL
    apply strSub_appL
    apply strSub_appR
    decide
  · simp only [composeMessage]
    apply strSub_appR
    apply strSub_appL
    apply strSub_appR
    exact strSub_self table
  · simp only [composeMessage, trendSection]
    apply strSub_appR
    apply strSub_appL
    apply strSub_appL
    apply strSub_appL
    apply strSub_appL
    apply strSub_appR
    apply strSub_appL
    apply strSub_appL
    apply strSub_appL
    apply strSub_appL
    apply strSub_appL
    apply strSub_appL
    apply strSub_appL
    decide
  · simp only [composeMessage]
    apply strSub_appR
    apply strSub_appL
    apply strSub_appL
    apply strSub_appR
    decide
  · simp only [composeMessage]
    apply strSub_appR
    apply strSub_appL
    apply strSub_appL
    apply strSub_appL
    apply strSub_appL
    apply strSub_appL
    apply strSub_appR
    decide
  · simp only [composeMessage]
    apply strSub_appR
    apply strSub_appL
    apply strSub_appR
    exact strSub_self table

/-- C6: table rendering is per-row isolated.  For every retrieval oracle
the table is the header block followed by exactly one line per basket
asset, in basket order, a failing asset contributing exactly its
placeholder line; and in the concrete scenario where the third asset
(1605.TW) fails and the others succeed, the body holds exactly one
placeholder row and five rows total (so four normal rows), in basket
order. -/
theorem spec_c6_table (fetch : StockInfo → FetchRes) :
    stocksLines fetch STOCK_LIST =
      [headerLine, sepLine] ++ STOCK_LIST.map (fun s => renderRow s (fetch s))
    ∧ (∀ s : StockInfo, renderRow s FetchRes.err = s.id ++ " 讀取錯誤")
    ∧ (stocksLines scenarioFetch STOCK_LIST).drop 2 =
        STOCK_LIST.map (fun s => renderRow s (scenarioFetch s))
    ∧ ((stocksLines scenarioFetch STOCK_LIST).drop 2).filter
        (fun r => strContainsSub "讀取錯誤" r || strContainsSub "無資料" r) =
        ["1605.TW 讀取錯誤"]
    ∧ ((stocksLines scenarioFetch STOCK_LIST).drop 2).length = 5 := by
  have hfix : fix2 (100:ℚ) = "100.00" := by
    unfold fix2
    rw [show ((100:ℚ) * 100) = (((10000:ℤ)):ℚ) from by norm_num, round_intCast]
    decide
  have hrow : ∀ s : StockInfo, renderRow s (FetchRes.ok [100] Option.none) =
      padR (strReplace s.id ".TW" "") 5 ++ " " ++ padR s.name 4 ++ " " ++
        padL "100.00" 6 ++ " " ++ padL "0.00%" 7 ++ " " ++ padL "0" 5 ++ "  " ++ s.tag := by
    intro s
    simp only [renderRow]
    rw [if_pos (by decide : 1 ≤ ([(100:ℚ)]).length),
      if_neg (by decide : ¬ 2 ≤ ([(100:ℚ)]).length)]
    rw [show ([(100:ℚ)]).getLastD 0 = (100:ℚ) from rfl, hfix,
      show toString (0:ℤ) = "0" from by decide]
  have hmap : stocksLines scenarioFetch STOCK_LIST =
      [headerLine, sepLine] ++ STOCK_LIST.map (fun s => renderRow s (scenarioFetch s)) := by
    unfold stocksLines
    exact foldl_snoc_map _ STOCK_LIST [headerLine, sepLine]
  have hdrop : (stocksLines scenarioFetch STOCK_LIST).drop 2 =
      STOCK_LIST.map (fun s => renderRow s (scenarioFetch s)) := by
    rw [hmap]
    rfl
  refine ⟨?_, fun s => rfl, hdrop, ?_, ?_⟩
  · unfold stocksLines
    exact foldl_snoc_map _ STOCK_LIST [headerLine, sepLine]
  · rw [hdrop]
    simp only [STOCK_LIST, List.map_cons, List.map_nil]
    rw [show scenarioFetch ⟨"2025.TW", "千興", "小型飆股"⟩ = FetchRes.ok [100] Option.none from rfl,
      show scenarioFetch ⟨"2030.TW", "彰源", "庫存利得"⟩ = FetchRes.ok [100] Option.none from rfl,
      show scenarioFetch ⟨"1605.TW", "華新", "鎳礦資源"⟩ = FetchRes.err from rfl,
      show scenarioFetch ⟨"2034.TW", "允強", "製造龍頭"⟩ = FetchRes.ok [100] Option.none from rfl,
      show scenarioFetch ⟨"2027.TW", "大成鋼", "美鋁通路"⟩ = FetchRes.ok [100] Option.none from rfl]
    rw [hrow ⟨"2025.TW", "千興", "小型飆股"⟩, hrow ⟨"2030.TW", "彰源", "庫存利得"⟩,
      hrow ⟨"2034.TW", "允強", "製造龍頭"⟩, hrow ⟨"2027.TW", "大成鋼", "美鋁通路"⟩]
    decide
  · rw [hdrop]
    simp only [STOCK_LIST, List.map_cons, List.map_nil, List.length_cons, List.length_nil]
